import Mathlib

set_option linter.unusedVariables false

/-!
Shallow embedding of the process-state reconciliation core of
`susops_tray.py`: the exit-code classifier, the state controller
(`_apply_state`, `_after_proxy_cmd`, `_startup_check`, `_on_poll_result`),
the command runner (`run_cmd`), the config helper, the icon resolver
(`_state_icon_path`) and the port validator (`is_valid_port`).

External effects (subprocess spawning, the filesystem, the GTK toolkit)
are modelled as explicit environment parameters; the pure logic of each
Python function is translated line by line.
-/

namespace SusOps

/-- The `ProcessState` enum of `susops_tray.py`. -/
inductive ProcessState where
  | INITIAL
  | RUNNING
  | STOPPED_PARTIALLY
  | STOPPED
  | ERROR
deriving DecidableEq, Repr

/-- The first tuple component of each `ProcessState` value: its human label. -/
def ProcessState.label : ProcessState → String
  | .INITIAL => "initial"
  | .RUNNING => "running"
  | .STOPPED_PARTIALLY => "stopped partially"
  | .STOPPED => "stopped"
  | .ERROR => "error"

/-- The second tuple component of each `ProcessState` value: its status dot glyph. -/
def ProcessState.dot : ProcessState → String
  | .INITIAL => "⚫"
  | .RUNNING => "🟢"
  | .STOPPED_PARTIALLY => "🟠"
  | .STOPPED => "⚫"
  | .ERROR => "🔴"

/-- The third tuple component of each `ProcessState` value: its icon key. -/
def ProcessState.icon_name : ProcessState → String
  | .INITIAL => "stopped"
  | .RUNNING => "running"
  | .STOPPED_PARTIALLY => "stopped_partially"
  | .STOPPED => "stopped"
  | .ERROR => "error"

/-- The `LogoStyle` enum of `susops_tray.py`. -/
inductive LogoStyle where
  | GEAR
  | COLORED_GLASSES
  | COLORED_S
deriving DecidableEq, Repr

/-- `LogoStyle.dir_name`: the enum value lower-cased, used as an icon directory name. -/
def LogoStyle.dir_name : LogoStyle → String
  | .GEAR => "gear"
  | .COLORED_GLASSES => "colored_glasses"
  | .COLORED_S => "colored_s"

/-- `DEFAULT_LOGO_STYLE = LogoStyle.COLORED_GLASSES`. -/
def DEFAULT_LOGO_STYLE : LogoStyle := .COLORED_GLASSES

/-- `SusOpsApp._rc_to_state`: maps a command exit code to a `ProcessState`
via the dict `{0: RUNNING, 2: STOPPED_PARTIALLY, 3: STOPPED}.get(rc, ERROR)`. -/
def rc_to_state (rc : Int) : ProcessState :=
  if rc = 0 then .RUNNING
  else if rc = 2 then .STOPPED_PARTIALLY
  else if rc = 3 then .STOPPED
  else .ERROR

/-- Outcome of one `subprocess.run` call inside `run_cmd`, abstracting the OS
process boundary: the subprocess completed with captured stdout, stderr and a
return code, the wait expired (`subprocess.TimeoutExpired`), or launching the
command raised some other exception whose message is `msg`. -/
inductive SpawnOutcome where
  | completed (stdout stderr : String) (returncode : Int)
  | timedOut
  | failure (msg : String)
deriving DecidableEq, Repr

/-- `run_cmd`: runs the susops command and returns (combined stdout+stderr,
returncode). On completion it prefers the stripped stdout and falls back to
the stripped stderr; `subprocess.TimeoutExpired` is caught and turned into
the pair `("Command timed out", 1)`; any other exception is caught and turned
into `(str(exc), 1)`. The Lean embedding is total: no outcome escapes as an
exception. -/
def runCmd (o : SpawnOutcome) : String × Int :=
  match o with
  | .completed stdout stderr rc =>
      let out := if stdout.trim ≠ "" then stdout.trim else stderr.trim
      (out, rc)
  | .timedOut => ("Command timed out", 1)
  | .failure msg => (msg, 1)

/-- The UI-facing state owned by `SusOpsApp`: the committed `_state`, the
status-row markup, the icon key last pushed to the tray, the sensitivity of
the Start/Stop/Restart/Test menu items, a counter of completed
`_apply_state` UI updates, and a counter of `_show_welcome` invocations. -/
structure App where
  state : ProcessState
  statusMarkup : String
  iconKey : String
  startSens : Bool
  stopSens : Bool
  restartSens : Bool
  testAnySens : Bool
  testAllSens : Bool
  uiUpdates : Nat
  welcomeCount : Nat
deriving DecidableEq, Repr

/-- The app right after `__init__` and `_build_menu`: committed state is
`INITIAL`, the status row shows the checking message, and every menu item has
the GTK default sensitivity (enabled). -/
def App.initial : App :=
  { state := .INITIAL
    statusMarkup := ProcessState.dot .INITIAL ++ " <b>Status:</b> checking…"
    iconKey := ProcessState.icon_name .STOPPED
    startSens := true
    stopSens := true
    restartSens := true
    testAnySens := true
    testAllSens := true
    uiUpdates := 0
    welcomeCount := 0 }

/-- `SusOpsApp._apply_state`: if the new state equals the committed state this
is a no-op; otherwise it updates the status markup, the tray icon and the
menu-item sensitivities, and only then commits the new state. `uiUpdates` is
incremented exactly when the UI-update block runs. -/
def apply_state (new_state : ProcessState) (s : App) : App :=
  if new_state = s.state then s
  else
    let running : Bool := decide (new_state = ProcessState.RUNNING)
    let partially : Bool := decide (new_state = ProcessState.STOPPED_PARTIALLY)
    let error : Bool := decide (new_state = ProcessState.ERROR)
    { s with
      statusMarkup := ProcessState.dot new_state ++ " <b>Status:</b> " ++
        ProcessState.label new_state
      iconKey := ProcessState.icon_name new_state
      startSens := !running && !error
      stopSens := running || partially
      restartSens := running || partially
      testAnySens := running || partially
      testAllSens := running || partially
      uiUpdates := s.uiUpdates + 1
      state := new_state }

/-- `SusOpsApp._on_poll_result`: the callback of the periodic status poll;
classifies the exit code and applies the resulting state. The output text is
received but unused. -/
def on_poll_result (out : String) (rc : Int) (s : App) : App :=
  apply_state (rc_to_state rc) s

/-- Substring containment, the Python expression `needle in hay`. -/
def strContains (hay needle : String) : Bool :=
  decide (needle.data <:+: hay.data)

/-- `SusOpsApp._startup_check`: runs `ps` once (its result is the pair
`(out, rc)`), applies the classified state, and shows the welcome dialog when
the new state is `ERROR` and the output contains the first-run signature.
The returned boolean is the GLib callback return value: `False` means the
idle source is removed, so the callback runs exactly once per process
lifetime. -/
def startup_check (out : String) (rc : Int) (s : App) : App × Bool :=
  let new_state := rc_to_state rc
  let s1 := apply_state new_state s
  let s2 :=
    if new_state = ProcessState.ERROR ∧
        strContains out "no default connection found" = true then
      { s1 with welcomeCount := s1.welcomeCount + 1 }
    else s1
  (s2, false)

/-- `SusOpsApp._after_proxy_cmd`: completion callback of the user-initiated
start/stop/restart commands. It resets the committed state to `INITIAL` so
that the next `_apply_state` always re-runs, then calls `_poll`, which issues
exactly one asynchronous `ps` status query; finally it raises an error dialog
when the command failed with output. Returns the updated app, the list of
status queries issued, and whether the error dialog was shown. -/
def after_proxy_cmd (out : String) (rc : Int) (s : App) : App × List String × Bool :=
  let s1 := { s with state := ProcessState.INITIAL }
  (s1, ["ps"], decide (rc ≠ 0) && decide (out ≠ ""))

/-- Menu-item sensitivity invariant established by `_apply_state`: Start is
enabled iff the committed state is neither Running nor Error; Stop, Restart
and the two Test items are enabled iff it is Running or StoppedPartially. -/
def sensOk (s : App) : Prop :=
  (s.startSens = true ↔
    s.state ≠ ProcessState.RUNNING ∧ s.state ≠ ProcessState.ERROR) ∧
  (s.stopSens = true ↔
    s.state = ProcessState.RUNNING ∨ s.state = ProcessState.STOPPED_PARTIALLY) ∧
  (s.restartSens = true ↔
    s.state = ProcessState.RUNNING ∨ s.state = ProcessState.STOPPED_PARTIALLY) ∧
  (s.testAnySens = true ↔
    s.state = ProcessState.RUNNING ∨ s.state = ProcessState.STOPPED_PARTIALLY) ∧
  (s.testAllSens = true ↔
    s.state = ProcessState.RUNNING ∨ s.state = ProcessState.STOPPED_PARTIALLY)

/-- The environment `_state_icon_path` runs in: the resolved icons directory
(`_ICONS_DIR`, `None` when no candidate directory exists), the global fallback
`ICON_PATH`, the theme signal `_is_dark_theme()`, the filesystem existence
predicate `os.path.exists`, whether the unguarded
`os.makedirs(cache_dir, exist_ok=True)` call succeeds (it sits outside every
try block and raises e.g. NotADirectoryError or PermissionError when the
cache directory cannot be created), and whether the Pixbuf SVG-to-PNG
conversion of a given SVG file succeeds (the body of the try block). -/
structure IconEnv where
  iconsDir : Option String
  iconPath : String
  isDark : Bool
  pathExists : String → Bool
  makedirsOk : Bool
  convertOk : String → Bool

/-- `os.path.join(_ICONS_DIR, style_name, variant, state_name + ".svg")`. -/
def svgPathOf (dir styleName variant stateName : String) : String :=
  dir ++ "/" ++ styleName ++ "/" ++ variant ++ "/" ++ stateName ++ ".svg"

/-- The per-user raster cache directory `~/.cache/susops/icons`. -/
def iconCacheDir : String := "~/.cache/susops/icons"

/-- `os.path.join(cache_dir, style_name + "_" + state_name + "_" + variant + ".png")`. -/
def pngPathOf (styleName stateName variant : String) : String :=
  iconCacheDir ++ "/" ++ styleName ++ "_" ++ stateName ++ "_" ++ variant ++ ".png"

/-- The theme variant chosen by `_state_icon_path`:
`variant = "light" if _is_dark_theme() else "dark"`. -/
def variantOf (env : IconEnv) : String :=
  if env.isDark then "light" else "dark"

/-- The style directory chosen by `_state_icon_path`:
`style = logo_style if logo_style is not None else DEFAULT_LOGO_STYLE`,
then `style_name = style.dir_name`. -/
def styleNameOf (logoStyle : Option LogoStyle) : String :=
  (match logoStyle with
    | some st => st
    | none => DEFAULT_LOGO_STYLE).dir_name

/-- The tail of `_state_icon_path`: reuse the cached PNG when it exists,
otherwise convert the SVG; a conversion error falls back to `ICON_PATH`. -/
def convertStep (env : IconEnv) (styleName stateName variant svg : String) : String :=
  if env.pathExists (pngPathOf styleName stateName variant) then
    pngPathOf styleName stateName variant
  else if env.convertOk svg then
    pngPathOf styleName stateName variant
  else env.iconPath

/-- The body of `_state_icon_path` once an icons directory exists: look up
the SVG keyed by (style, variant, state); when absent fall back to the
default style `colored_glasses`; when still absent return `ICON_PATH`.
When an SVG is found, `os.makedirs(cache_dir, exist_ok=True)` runs before
`convertStep`; it is not inside any try block, so its failure propagates as
an exception (`Except.error`) instead of producing an icon path. -/
def state_icon_path_dir (env : IconEnv) (dir stateName : String)
    (logoStyle : Option LogoStyle) : Except Unit String :=
  if env.pathExists
      (svgPathOf dir (styleNameOf logoStyle) (variantOf env) stateName) then
    if env.makedirsOk then
      .ok (convertStep env (styleNameOf logoStyle) stateName (variantOf env)
        (svgPathOf dir (styleNameOf logoStyle) (variantOf env) stateName))
    else .error ()
  else if env.pathExists
      (svgPathOf dir DEFAULT_LOGO_STYLE.dir_name (variantOf env) stateName) then
    if env.makedirsOk then
      .ok (convertStep env DEFAULT_LOGO_STYLE.dir_name stateName (variantOf env)
        (svgPathOf dir DEFAULT_LOGO_STYLE.dir_name (variantOf env) stateName))
    else .error ()
  else .ok env.iconPath

/-- `_state_icon_path(state_name, logo_style)`: without an icons directory
the global fallback `ICON_PATH` is returned immediately; otherwise resolution
proceeds inside the directory, where it either produces an icon path or lets
a cache-directory creation failure escape as an exception. -/
def state_icon_path (env : IconEnv) (stateName : String)
    (logoStyle : Option LogoStyle) : Except Unit String :=
  match env.iconsDir with
  | none => .ok env.iconPath
  | some dir => state_icon_path_dir env dir stateName logoStyle

/-- Outcome of one `ConfigHelper.read` attempt: the config file is missing,
the `yq` invocation (or anything inside the try block) raised, or `yq` ran
and produced captured stdout with a return code. -/
inductive ReadOutcome where
  | missingConfig
  | raised
  | ran (stdout : String) (returncode : Int)
deriving DecidableEq, Repr

/-- `ConfigHelper.read(query, default)`: a missing config file or a raised
exception yields the default; otherwise the stripped stdout is returned
unless it is the literal `null` or the tool exited non-zero, in which case
the default is returned. -/
def ConfigHelper.read (outcome : ReadOutcome) (query default : String) : String :=
  match outcome with
  | .missingConfig => default
  | .raised => default
  | .ran stdout rc =>
      let out := stdout.trim
      if out = "null" ∨ rc ≠ 0 then default else out

/-- Outcome of one `ConfigHelper.write` attempt: the
`os.makedirs(WORKSPACE, exist_ok=True)` call that precedes the try block
raised (e.g. the workspace path is a regular file, or permission is denied),
the `yq` invocation inside the try raised (including `TimeoutExpired`), or
`yq` ran to completion with a return code (`check=True` turns a non-zero
code into a caught `CalledProcessError`). -/
inductive WriteOutcome where
  | makedirsRaised
  | raised
  | ran (returncode : Int)
deriving DecidableEq, Repr

/-- `ConfigHelper.write(query)`: returns True on success and False on any
failure inside the try block; but the makedirs call sits before the try, so
its failure propagates to the caller as an exception (`Except.error`)
instead of the boolean False. -/
def ConfigHelper.write (outcome : WriteOutcome) (query : String) : Except Unit Bool :=
  match outcome with
  | .makedirsRaised => .error ()
  | .raised => .ok false
  | .ran rc => .ok (decide (rc = 0))

/-- Python `str.isdigit` on one character, for the code points exercised in
this development: the ASCII digits, the Arabic-Indic decimal digits
U+0660..U+0669 (Unicode category Nd), and the superscript digits U+00B2,
U+00B3, U+00B9, which are digit-true but carry no decimal value. Python's
full Unicode table extends this on further scripts in the same two classes
(decimal digits with a value, digit-true characters without one). -/
def charIsDigitPy (c : Char) : Bool :=
  c.isDigit || decide (0x660 ≤ c.toNat ∧ c.toNat ≤ 0x669) ||
    decide (c.toNat = 0xB2 ∨ c.toNat = 0xB3 ∨ c.toNat = 0xB9)

/-- The Unicode decimal value used by Python `int`: defined on the decimal
digits (category Nd) among the modelled code points, absent on digit-true
characters such as the superscripts, where `int` raises ValueError. -/
def charNdValue (c : Char) : Option Nat :=
  if c.isDigit then some (c.toNat - 48)
  else if 0x660 ≤ c.toNat ∧ c.toNat ≤ 0x669 then some (c.toNat - 0x660)
  else none

/-- Python `str.isdigit`: non-empty and every character digit-true. -/
def pyIsdigit (s : String) : Bool :=
  !s.isEmpty && s.data.all charIsDigitPy

/-- One step of Python `int` over an isdigit-true string: accumulate the
decimal value, failing permanently when a character has none. -/
def pyIntStep (acc : Option Nat) (c : Char) : Option Nat :=
  match acc, charNdValue c with
  | some n, some d => some (10 * n + d)
  | _, _ => none

/-- Python `int` on a digit string: the accumulated decimal value, or `none`
when some character has no decimal value, in which case `int` raises
ValueError. -/
def pyInt (s : String) : Option Nat :=
  s.data.foldl pyIntStep (some 0)

/-- `is_valid_port(value)`: `value.isdigit() and 1 <= int(value) <= 65535`.
When `isdigit` is false the conjunction short-circuits to False; when it is
true, `int(value)` runs and can raise ValueError on digit-true characters
without a decimal value, which propagates (`Except.error`). -/
def is_valid_port (value : String) : Except Unit Bool :=
  if pyIsdigit value then
    match pyInt value with
    | some n => .ok (decide (1 ≤ n) && decide (n ≤ 65535))
    | none => .error ()
  else .ok false

/-- The base-ten value of a string of ASCII decimal digits, the integer
value the claim speaks about. -/
def decimalValue (s : String) : Nat :=
  s.data.foldl (fun n c => 10 * n + (c.toNat - 48)) 0

end SusOps

namespace SusOps

/-- C1: the state classifier maps exit code 0 to Running, 2 to StoppedPartially,
3 to Stopped and every other integer to Error, and it is a total function
(every exit code maps to exactly one state). -/
theorem rc_to_state_cases :
    rc_to_state 0 = ProcessState.RUNNING ∧
    rc_to_state 2 = ProcessState.STOPPED_PARTIALLY ∧
    rc_to_state 3 = ProcessState.STOPPED ∧
    (∀ rc : Int, rc ≠ 0 → rc ≠ 2 → rc ≠ 3 → rc_to_state rc = ProcessState.ERROR) ∧
    (∀ rc : Int, ∃! st : ProcessState, rc_to_state rc = st) := by
  refine ⟨rfl, rfl, rfl, ?_, ?_⟩
  · intro rc h0 h2 h3
    simp [rc_to_state, h0, h2, h3]
  · intro rc
    exact ⟨rc_to_state rc, rfl, fun st h => h.symm⟩

/-- Witness for C1: exit code 9 is not in {0,2,3} and classifies to Error. -/
theorem rc_to_state_cases_witness : rc_to_state 9 = ProcessState.ERROR :=
  rc_to_state_cases.2.2.2.1 9 (by decide) (by decide) (by decide)

/-- Helper: the classifier never produces the `INITIAL` state. -/
theorem rc_to_state_ne_INITIAL (rc : Int) :
    rc_to_state rc ≠ ProcessState.INITIAL := by
  unfold rc_to_state
  split
  · simp
  · split
    · simp
    · split <;> simp

/-- Helper: an application whose target equals the committed state is the
identity. -/
theorem apply_state_of_eq (ns : ProcessState) (s : App) (h : ns = s.state) :
    apply_state ns s = s := by
  unfold apply_state
  rw [if_pos h]

/-- Helper: the committed state after `apply_state` is always the applied
state. -/
theorem apply_state_state (ns : ProcessState) (s : App) :
    (apply_state ns s).state = ns := by
  unfold apply_state
  split
  · next h => exact h.symm
  · rfl

/-- Helper: a genuine transition bumps the UI-update counter by one. -/
theorem apply_state_uiUpdates_of_ne (ns : ProcessState) (s : App)
    (h : ns ≠ s.state) :
    (apply_state ns s).uiUpdates = s.uiUpdates + 1 := by
  unfold apply_state
  rw [if_neg h]

/-- Helper: `apply_state` never touches the welcome-dialog counter. -/
theorem apply_state_welcomeCount (ns : ProcessState) (s : App) :
    (apply_state ns s).welcomeCount = s.welcomeCount := by
  unfold apply_state
  split <;> rfl

/-- C2: after a user-initiated start/stop/restart command completes with any
exit code, the controller issues exactly one follow-up `ps` status poll, the
committed state is reset to `INITIAL` before re-polling, and the displayed
state after the poll callback equals the classified result of the poll exit
code alone (the formula does not mention the command exit code), with the UI
update always re-applied because the classifier never returns `INITIAL`. -/
theorem after_proxy_cmd_repolls (out : String) (rc : Int) (s : App) :
    (after_proxy_cmd out rc s).2.1 = ["ps"] ∧
    (after_proxy_cmd out rc s).1.state = ProcessState.INITIAL ∧
    ∀ pollOut : String, ∀ pollRc : Int,
      (on_poll_result pollOut pollRc (after_proxy_cmd out rc s).1).state =
        rc_to_state pollRc ∧
      (on_poll_result pollOut pollRc (after_proxy_cmd out rc s).1).uiUpdates =
        s.uiUpdates + 1 := by
  refine ⟨rfl, rfl, fun pollOut pollRc => ⟨apply_state_state _ _, ?_⟩⟩
  show (apply_state (rc_to_state pollRc) _).uiUpdates = s.uiUpdates + 1
  rw [apply_state_uiUpdates_of_ne _ _ (by simpa using rc_to_state_ne_INITIAL pollRc)]
  rfl

/-- C3: applying a state equal to the committed one is a no-op; applying the
same state twice in a row leaves the app of the first application unchanged,
and performs the UI update exactly once overall. -/
theorem apply_state_idem (ns : ProcessState) (s : App) :
    (ns = s.state → apply_state ns s = s) ∧
    apply_state ns (apply_state ns s) = apply_state ns s ∧
    (ns ≠ s.state →
      (apply_state ns (apply_state ns s)).uiUpdates = s.uiUpdates + 1) := by
  have hsecond : apply_state ns (apply_state ns s) = apply_state ns s :=
    apply_state_of_eq ns _ (apply_state_state ns s).symm
  refine ⟨fun h => apply_state_of_eq ns s h, hsecond, fun h => ?_⟩
  rw [hsecond, apply_state_uiUpdates_of_ne ns s h]

/-- Witness for C3 at the concrete transition Initial to Running. -/
theorem apply_state_idem_witness :
    ProcessState.RUNNING ≠ App.initial.state ∧
    (apply_state ProcessState.RUNNING
      (apply_state ProcessState.RUNNING App.initial)).uiUpdates =
        App.initial.uiUpdates + 1 :=
  ⟨by decide, (apply_state_idem ProcessState.RUNNING App.initial).2.2 (by decide)⟩

/-- C4: every genuine state application establishes the sensitivity
invariant, every no-op application preserves it, and applying `Stopped` in
particular leaves Start enabled with Stop and Restart disabled. -/
theorem sens_after_apply (ns : ProcessState) (s : App) :
    (ns ≠ s.state → sensOk (apply_state ns s)) ∧
    (sensOk s → sensOk (apply_state ns s)) ∧
    (s.state ≠ ProcessState.STOPPED →
      (apply_state ProcessState.STOPPED s).startSens = true ∧
      (apply_state ProcessState.STOPPED s).stopSens = false ∧
      (apply_state ProcessState.STOPPED s).restartSens = false) := by
  have key : ∀ t : ProcessState, t ≠ s.state → sensOk (apply_state t s) := by
    intro t ht
    unfold apply_state
    rw [if_neg ht]
    cases t <;> simp [sensOk]
  refine ⟨key ns, ?_, ?_⟩
  · intro hs
    by_cases h : ns = s.state
    · rw [apply_state_of_eq ns s h]
      exact hs
    · exact key ns h
  · intro hst
    unfold apply_state
    rw [if_neg (fun h => hst h.symm)]
    exact ⟨rfl, rfl, rfl⟩

/-- Witness for C4: applying Stopped to the freshly built app enables Start
and disables Stop and Restart, and the sensitivity invariant holds. -/
theorem sens_after_apply_witness :
    ProcessState.STOPPED ≠ App.initial.state ∧
    sensOk (apply_state ProcessState.STOPPED App.initial) ∧
    (apply_state ProcessState.STOPPED App.initial).startSens = true ∧
    (apply_state ProcessState.STOPPED App.initial).stopSens = false :=
  ⟨by decide,
   (sens_after_apply ProcessState.STOPPED App.initial).1 (by decide),
   ((sens_after_apply ProcessState.STOPPED App.initial).2.2 (by decide)).1,
   ((sens_after_apply ProcessState.STOPPED App.initial).2.2 (by decide)).2.1⟩

/-- C5: a command that exceeds its timeout makes the runner return the pair
(text "Command timed out", exit code 1). -/
theorem runCmd_timeout : runCmd SpawnOutcome.timedOut = ("Command timed out", 1) :=
  rfl

/-- C6: every launch failure is caught and returned as the pair (error
message, exit code 1); `runCmd` is a total function on every spawn outcome,
so no exception ever reaches the caller. -/
theorem runCmd_failure :
    (∀ msg : String, runCmd (SpawnOutcome.failure msg) = (msg, 1)) ∧
    ∀ o : SpawnOutcome, runCmd o = ((runCmd o).1, (runCmd o).2) :=
  ⟨fun _ => rfl, fun _ => rfl⟩

/-- C7: the startup check returns False to GLib, so its idle source is
removed and it runs exactly once per process lifetime; it applies the
classified state of its single query; the welcome dialog counter increases
exactly when the classified state is Error and the output contains the
first-run signature; and the periodic poll callback never touches the
welcome dialog counter. -/
theorem startup_check_spec (out : String) (rc : Int) (s : App) :
    (startup_check out rc s).2 = false ∧
    (startup_check out rc s).1.state = rc_to_state rc ∧
    ((startup_check out rc s).1.welcomeCount = s.welcomeCount + 1 ↔
      rc_to_state rc = ProcessState.ERROR ∧
      strContains out "no default connection found" = true) ∧
    ((startup_check out rc s).1.welcomeCount = s.welcomeCount ↔
      ¬(rc_to_state rc = ProcessState.ERROR ∧
        strContains out "no default connection found" = true)) ∧
    ∀ pollOut : String, ∀ pollRc : Int, ∀ t : App,
      (on_poll_result pollOut pollRc t).welcomeCount = t.welcomeCount := by
  have hwc := apply_state_welcomeCount (rc_to_state rc) s
  have hst := apply_state_state (rc_to_state rc) s
  have heq : startup_check out rc s =
      (if rc_to_state rc = ProcessState.ERROR ∧
          strContains out "no default connection found" = true then
        { apply_state (rc_to_state rc) s with
          welcomeCount := (apply_state (rc_to_state rc) s).welcomeCount + 1 }
      else apply_state (rc_to_state rc) s, false) := rfl
  rw [heq]
  by_cases h : rc_to_state rc = ProcessState.ERROR ∧
      strContains out "no default connection found" = true
  · have hwc2 := apply_state_welcomeCount ProcessState.ERROR s
    rw [if_pos h]
    refine ⟨rfl, hst, ?_, ?_, fun _ pollRc t => apply_state_welcomeCount _ t⟩
    · simpa [hwc, hwc2] using h
    · simp [hwc, hwc2, h]
  · rw [if_neg h]
    refine ⟨rfl, hst, ?_, ?_, fun _ pollRc t => apply_state_welcomeCount _ t⟩
    · simp [hwc, h]
    · simp [hwc, h]

/-- C8 counterexample: with an icons directory present, the SVG asset found,
but cache-directory creation failing, `_state_icon_path` raises instead of
returning the global fallback icon path, so resolution is not raise-free
and the caller receives no icon handle on this input. -/
theorem state_icon_path_raises_counterexample :
    state_icon_path
      { iconsDir := some "/app/icons", iconPath := "/app/icon.png",
        isDark := false, pathExists := fun _ => true,
        makedirsOk := false, convertOk := fun _ => true }
      "running" (some LogoStyle.GEAR) = Except.error () ∧
    (Except.error () : Except Unit String) ≠ Except.ok "/app/icon.png" :=
  ⟨rfl, fun h => Except.noConfusion h⟩

/-- C8 (amended): icon resolution returns the global fallback `ICON_PATH`
when the icons directory is absent, when the SVG asset is missing even after
falling back to the default style, or when conversion fails with no cached
raster; and whenever the cache-directory creation succeeds the result is
always an icon handle (the fallback or a PNG path). But when an SVG is found
and the cache-directory creation fails, the exception propagates to the
caller. -/
theorem state_icon_path_resolution (env : IconEnv) (stateName : String)
    (logoStyle : Option LogoStyle) :
    (env.iconsDir = none →
      state_icon_path env stateName logoStyle = Except.ok env.iconPath) ∧
    (∀ dir : String, env.iconsDir = some dir →
      env.pathExists
        (svgPathOf dir (styleNameOf logoStyle) (variantOf env) stateName) = false →
      env.pathExists
        (svgPathOf dir DEFAULT_LOGO_STYLE.dir_name (variantOf env) stateName) = false →
      state_icon_path env stateName logoStyle = Except.ok env.iconPath) ∧
    (∀ styleName variant svg : String,
      env.pathExists (pngPathOf styleName stateName variant) = false →
      env.convertOk svg = false →
      convertStep env styleName stateName variant svg = env.iconPath) ∧
    (env.makedirsOk = true →
      (state_icon_path env stateName logoStyle = Except.ok env.iconPath ∨
        ∃ styleName variant : String,
          state_icon_path env stateName logoStyle =
            Except.ok (pngPathOf styleName stateName variant))) ∧
    (∀ dir : String, env.iconsDir = some dir → env.makedirsOk = false →
      env.pathExists
        (svgPathOf dir (styleNameOf logoStyle) (variantOf env) stateName) = true →
      state_icon_path env stateName logoStyle = Except.error ()) := by
  have hconv : ∀ styleName variant svg : String,
      convertStep env styleName stateName variant svg =
        pngPathOf styleName stateName variant ∨
      convertStep env styleName stateName variant svg = env.iconPath := by
    intro styleName variant svg
    unfold convertStep
    split
    · exact Or.inl rfl
    · split
      · exact Or.inl rfl
      · exact Or.inr rfl
  have hsome : ∀ dir : String, env.iconsDir = some dir →
      state_icon_path env stateName logoStyle =
        state_icon_path_dir env dir stateName logoStyle := by
    intro dir hdir
    unfold state_icon_path
    rw [hdir]
  refine ⟨?_, ?_, ?_, ?_, ?_⟩
  · intro h
    unfold state_icon_path
    rw [h]
  · intro dir hdir h1 h2
    rw [hsome dir hdir]
    unfold state_icon_path_dir
    rw [h1, h2]
    simp
  · intro styleName variant svg h1 h2
    unfold convertStep
    rw [h1, h2]
    simp
  · intro hmk
    cases henv : env.iconsDir with
    | none =>
      refine Or.inl ?_
      unfold state_icon_path
      rw [henv]
    | some dir =>
      rw [hsome dir henv]
      unfold state_icon_path_dir
      rw [hmk]
      simp only [if_true]
      split
      · rcases hconv (styleNameOf logoStyle) (variantOf env)
            (svgPathOf dir (styleNameOf logoStyle) (variantOf env) stateName)
          with h | h
        · exact Or.inr ⟨_, _, by rw [h]⟩
        · exact Or.inl (by rw [h])
      · split
        · rcases hconv DEFAULT_LOGO_STYLE.dir_name (variantOf env)
              (svgPathOf dir DEFAULT_LOGO_STYLE.dir_name (variantOf env) stateName)
            with h | h
          · exact Or.inr ⟨_, _, by rw [h]⟩
          · exact Or.inl (by rw [h])
        · exact Or.inl rfl
  · intro dir hdir hmk h1
    rw [hsome dir hdir]
    unfold state_icon_path_dir
    rw [h1, hmk]
    simp

/-- Witness for C8: with no SVG present the makedirs call is never reached
and resolution returns the global fallback icon path. -/
theorem state_icon_path_resolution_witness :
    state_icon_path
      { iconsDir := some "/app/icons", iconPath := "/app/icon.png",
        isDark := false, pathExists := fun _ => false,
        makedirsOk := true, convertOk := fun _ => false }
      "running" (some LogoStyle.GEAR) = Except.ok "/app/icon.png" :=
  (state_icon_path_resolution
      { iconsDir := some "/app/icons", iconPath := "/app/icon.png",
        isDark := false, pathExists := fun _ => false,
        makedirsOk := true, convertOk := fun _ => false }
      "running" (some LogoStyle.GEAR)).2.1
    "/app/icons" rfl rfl rfl

/-- C9 counterexample: when creating the workspace directory raises before
the try block, `ConfigHelper.write` propagates the exception instead of
reporting the boolean False, so the write half of the claim fails on this
input. -/
theorem config_write_raises_counterexample :
    ConfigHelper.write WriteOutcome.makedirsRaised ".pac_server_port = 8080" =
      Except.error () ∧
    (Except.error () : Except Unit Bool) ≠ Except.ok false :=
  ⟨rfl, fun h => Except.noConfusion h⟩

/-- C9 (amended): every config-store read failure — missing config document,
raised exception, literal null result, or non-zero tool exit — yields the
caller-supplied default and never raises; a write failure inside the try
block — raised yq invocation or non-zero exit under check=True — is reported
as False; but a workspace-directory creation failure before the try
propagates as an exception. -/
theorem config_failures (query default : String) :
    ConfigHelper.read ReadOutcome.missingConfig query default = default ∧
    ConfigHelper.read ReadOutcome.raised query default = default ∧
    (∀ stdout : String, ∀ rc : Int, rc ≠ 0 →
      ConfigHelper.read (ReadOutcome.ran stdout rc) query default = default) ∧
    (∀ stdout : String, stdout.trim = "null" → ∀ rc : Int,
      ConfigHelper.read (ReadOutcome.ran stdout rc) query default = default) ∧
    ConfigHelper.write WriteOutcome.raised query = Except.ok false ∧
    (∀ rc : Int, rc ≠ 0 →
      ConfigHelper.write (WriteOutcome.ran rc) query = Except.ok false) ∧
    ConfigHelper.write WriteOutcome.makedirsRaised query = Except.error () := by
  refine ⟨rfl, rfl, ?_, ?_, rfl, ?_, rfl⟩
  · intro stdout rc h
    simp [ConfigHelper.read, h]
  · intro stdout h rc
    simp [ConfigHelper.read, h]
  · intro rc h
    simp [ConfigHelper.write, h]

/-- Witness for C9: a yq run that exits 5 yields the default, and a write
whose tool exits 1 reports False. -/
theorem config_failures_witness :
    (5 : Int) ≠ 0 ∧
    ConfigHelper.read (ReadOutcome.ran "yq: error" 5) ".pac_server_port" "0" = "0" ∧
    ConfigHelper.write (WriteOutcome.ran 1) ".pac_server_port = 8080" =
      Except.ok false :=
  ⟨by decide,
   (config_failures ".pac_server_port" "0").2.2.1 "yq: error" 5 (by decide),
   (config_failures ".pac_server_port = 8080" "").2.2.2.2.2.1 1 (by decide)⟩

/-- Helper: within ASCII, Python digit-true coincides with the decimal
digits 0-9. -/
theorem charIsDigitPy_ascii (c : Char) (h : c.toNat < 128) :
    charIsDigitPy c = c.isDigit := by
  unfold charIsDigitPy
  have h1 : decide (0x660 ≤ c.toNat ∧ c.toNat ≤ 0x669) = false := by
    simp only [decide_eq_false_iff_not]
    omega
  have h2 : decide (c.toNat = 0xB2 ∨ c.toNat = 0xB3 ∨ c.toNat = 0xB9) = false := by
    simp only [decide_eq_false_iff_not]
    omega
  rw [h1, h2]
  simp

/-- Helper: over a list of ASCII decimal digits the Python int fold succeeds
and computes the base-ten value. -/
theorem pyInt_fold_of_digits (l : List Char) (a : Nat)
    (h : ∀ c ∈ l, c.isDigit = true) :
    l.foldl pyIntStep (some a) =
      some (l.foldl (fun n c => 10 * n + (c.toNat - 48)) a) := by
  induction l generalizing a with
  | nil => rfl
  | cons c l ih =>
    have hc : c.isDigit = true := h c (by simp)
    have hv : charNdValue c = some (c.toNat - 48) := by
      unfold charNdValue
      rw [if_pos hc]
    have hstep : pyIntStep (some a) c = some (10 * a + (c.toNat - 48)) := by
      unfold pyIntStep
      rw [hv]
    rw [List.foldl_cons, List.foldl_cons, hstep]
    exact ih _ (fun d hd => h d (by simp [hd]))

/-- C10 counterexample: the single Arabic-Indic digit three is accepted by
the validator although it is not one of the decimal digits 0-9, refuting the
claimed characterisation over every string; and the superscript two, which
is digit-true but has no decimal value, makes the validator raise ValueError
instead of returning a verdict. -/
theorem is_valid_port_unicode_counterexample :
    is_valid_port "٣" = Except.ok true ∧
    ("٣" : String).data = ['٣'] ∧
    ('٣').isDigit = false ∧
    is_valid_port "²" = Except.error () :=
  ⟨rfl, rfl, rfl, rfl⟩

/-- C10 (amended): over strings of ASCII characters the port validator
accepts exactly the non-empty strings of decimal digits 0-9 whose value lies
between 1 and 65535 inclusive; in particular "0", "", "65536" and strings
containing a sign, space or dot are rejected. (On non-ASCII input Python is
Unicode-aware: decimal digits of other scripts are accepted with their
decimal value, and digit-true non-decimal characters raise, as the
counterexample shows.) -/
theorem is_valid_port_ascii_iff (s : String) :
    ((∀ c ∈ s.data, c.toNat < 128) →
      (is_valid_port s = Except.ok true ↔
        s ≠ "" ∧ (∀ c ∈ s.data, c.isDigit = true) ∧
        1 ≤ decimalValue s ∧ decimalValue s ≤ 65535)) ∧
    is_valid_port "0" = Except.ok false ∧
    is_valid_port "" = Except.ok false ∧
    is_valid_port "65536" = Except.ok false ∧
    is_valid_port "+1" = Except.ok false ∧
    is_valid_port " 1" = Except.ok false ∧
    is_valid_port "1.5" = Except.ok false ∧
    is_valid_port "1" = Except.ok true ∧
    is_valid_port "80" = Except.ok true ∧
    is_valid_port "65535" = Except.ok true := by
  refine ⟨?_, rfl, rfl, rfl, rfl, rfl, rfl, rfl, rfl, rfl⟩
  intro hascii
  unfold is_valid_port
  by_cases hd : pyIsdigit s = true
  · rw [if_pos hd]
    unfold pyIsdigit at hd
    rw [Bool.and_eq_true] at hd
    have h1 := hd.1
    have h2 := hd.2
    have hne : s ≠ "" := by
      intro he
      rw [he] at h1
      exact absurd h1 (by decide)
    have hall : ∀ c ∈ s.data, c.isDigit = true := by
      intro c hc
      rw [← charIsDigitPy_ascii c (hascii c hc)]
      exact List.all_eq_true.mp h2 c hc
    rw [show pyInt s = some (decimalValue s) from
      pyInt_fold_of_digits s.data 0 hall]
    show (Except.ok (decide (1 ≤ decimalValue s) &&
        decide (decimalValue s ≤ 65535)) : Except Unit Bool) = Except.ok true ↔ _
    simp only [Except.ok.injEq, Bool.and_eq_true, decide_eq_true_eq]
    exact ⟨fun h => ⟨hne, hall, h.1, h.2⟩, fun h => ⟨h.2.2.1, h.2.2.2⟩⟩
  · rw [if_neg hd]
    constructor
    · intro h
      simp at h
    · rintro ⟨hne, hall, hlo, hhi⟩
      exfalso
      apply hd
      unfold pyIsdigit
      rw [Bool.and_eq_true]
      refine ⟨by simp [Bool.eq_false_iff, String.isEmpty_iff, hne], ?_⟩
      rw [List.all_eq_true]
      intro c hc
      rw [charIsDigitPy_ascii c (hascii c hc)]
      exact hall c hc

/-- Witness for C10 at the ASCII string 80. -/
theorem is_valid_port_ascii_iff_witness :
    (∀ c ∈ ("80" : String).data, c.toNat < 128) ∧
    (is_valid_port "80" = Except.ok true ↔
      ("80" : String) ≠ "" ∧ (∀ c ∈ ("80" : String).data, c.isDigit = true) ∧
      1 ≤ decimalValue "80" ∧ decimalValue "80" ≤ 65535) :=
  ⟨by decide, (is_valid_port_ascii_iff "80").1 (by decide)⟩

end SusOps
